import Mathlib

/-!
Shallow embedding of `src/FitsConverter/FitsConverter.h` (the float-space
pixel colorization engine) and proofs about it.

Modelling conventions:
* C++ `float` / `double` arithmetic is idealized as exact rational
  arithmetic (`ℚ`); `std::floor` is `Int.floor`, `std::round` is
  round-half-away-from-zero, as the C++ standard specifies.
* A packed 32-bit pixel is a `Nat`; byte `i` (as seen through
  `reinterpret_cast<uint8_t*>` on a little-endian machine) is
  `p / 256 ^ i % 256`, so byte 0 is the least significant byte.
* `std::span<const float> data` is a `List ℚ`; the caller-provided output
  span `converted` is a `List Nat`, and `std::transform` over `data` into
  `converted` leaves any excess tail of `converted` untouched.
* Dereferencing `std::minmax_element` of an empty range is undefined
  behavior in C++; the embedding models the min/max of an empty list as
  having no value (`Option`), so the whole conversion yields `none` there.
-/

namespace FitsConverter

/-- The closed set of colorize modes, from `enum class ColorizeMode`. -/
inductive ColorizeMode
  | NICKRGB
  | SHORTNRGB
  | ROYGBIV
  | GREYSCALE
  | BINARY

/-- Byte `i` of a packed value: `reinterpret_cast<uint8_t*>(&p)[i]` on a
little-endian machine, with byte 0 least significant. -/
def byte (i p : Nat) : Nat := p / 256 ^ i % 256

/-- C++ `rgb(r, g, b)`: zero-initialize a 32-bit value and write
`bytes[0] = r`, `bytes[1] = g`, `bytes[2] = b` (byte 3 stays 0). The
`% 256` mirrors the implicit conversion to the `uint8_t` parameters. -/
def rgb (r g b : Nat) : Nat := r % 256 + g % 256 * 256 + b % 256 * 65536

/-- C++ lambda `nrgb`: `maxValue = uint32_max >> 8 = 16777215`;
`uint32 value = maxValue * percent` (double multiply, then truncating
conversion to `uint32`, defined for `percent ∈ [0, 1]`). -/
def nrgb (percent : ℚ) : Nat := (⌊(16777215 : ℚ) * percent⌋).toNat

/-- C++ lambda `snrgb`: `maxValue = uint32_max >> 16 = 65535`;
`maxValue * percent` truncated to `uint32`. -/
def snrgb (percent : ℚ) : Nat := (⌊(65535 : ℚ) * percent⌋).toNat

/-- C++ lambda `roygbiv`: `a = (1.0 - percent) / 0.20`; `X = floor(a)`
(integer part); `Y = floor(255.0 * (a - X))`; then the six-way switch on
`X`, with `r = g = b = 0` when `X` falls outside `0..5`. The literal
`0.20` is idealized as the rational `1/5`. -/
def roygbiv (percent : ℚ) : Nat :=
  let a : ℚ := (1 - percent) / (1 / 5)
  let X : ℤ := ⌊a⌋
  let Y : ℤ := ⌊255 * (a - X)⌋
  if X = 0 then rgb 255 Y.toNat 0
  else if X = 1 then rgb (255 - Y).toNat 255 0
  else if X = 2 then rgb 0 255 Y.toNat
  else if X = 3 then rgb 0 (255 - Y).toNat 255
  else if X = 4 then rgb Y.toNat 0 255
  else if X = 5 then rgb 255 0 255
  else rgb 0 0 0

/-- C++ lambda `grayScale`: `uint8 gray = 255 * percent` (double multiply,
truncating conversion, defined for `percent ∈ [0, 1]`); `rgb(gray, gray, gray)`. -/
def grayScale (percent : ℚ) : Nat :=
  let gray : Nat := (⌊(255 : ℚ) * percent⌋).toNat
  rgb gray gray gray

/-- C++ `std::round`: rounds half-way cases away from zero. -/
def stdRound (x : ℚ) : ℤ := if x < 0 then -⌊-x + 1 / 2⌋ else ⌊x + 1 / 2⌋

/-- C++ lambda `binary`: `uint8 bit = std::round(percent)`;
`uint8 gray = 255 * bit` (mod 256 on conversion back to `uint8`);
`rgb(gray, gray, gray)`. -/
def binary (percent : ℚ) : Nat :=
  let bit : Nat := (stdRound percent).toNat
  let gray : Nat := 255 * bit
  rgb gray gray gray

/-- The lambda `getViewWindow` inside `floatSpaceConvert`:
`minmax_element` over `data` (no value for an empty range, where the C++
dereference would be undefined behavior), then
`viewMin = min + distance * startPercent`,
`viewMax = min + distance * endPercent`,
`viewDistance = viewMax - viewMin`, forced to 1 when it equals 0. -/
def getViewWindow (data : List ℚ) (startPercent endPercent : ℚ) :
    Option (ℚ × ℚ × ℚ) :=
  match data.min?, data.max? with
  | some mn, some mx =>
    let distance := mx - mn
    let viewMin := mn + distance * startPercent
    let viewMax := mn + distance * endPercent
    let viewDistance := viewMax - viewMin
    let viewDistance := if viewDistance = 0 then 1 else viewDistance
    some (viewMin, viewMax, viewDistance)
  | _, _ => none

/-- The lambda `convertToGreyScale` inside `floatSpaceConvert` (the
periodic remap): `percent = 1.0`; `f -= viewMin`;
`if (f < viewDistance) { f -= stripeDistance * floor(f / stripeDistance);
percent = f / stripeDistance; }`. -/
def convertToGreyScale (viewMin viewDistance stripeDistance f : ℚ) : ℚ :=
  let f := f - viewMin
  if f < viewDistance then
    let f := f - stripeDistance * ⌊f / stripeDistance⌋
    f / stripeDistance
  else 1

/-- The lambda `setOpaque`: `reinterpret_cast<uint8_t*>(&p)[3] = 255`,
i.e. replace byte 3 of the packed value with 255. -/
def setOpaque (p : Nat) : Nat := p % 16777216 + 255 * 16777216

/-- The switch over `colorMode` in `floatSpaceConvert`: which ramp lambda
`forEachPixel` is invoked with. -/
def colorizeOf : ColorizeMode → ℚ → Nat
  | ColorizeMode.NICKRGB => nrgb
  | ColorizeMode.SHORTNRGB => snrgb
  | ColorizeMode.ROYGBIV => roygbiv
  | ColorizeMode.GREYSCALE => grayScale
  | ColorizeMode.BINARY => binary

/-- The lambda `forEachPixel`: `std::transform(seq, data.begin(),
data.end(), converted.begin(), ...)` — for each sample compute the stripe
percent, apply the ramp, force opacity, and write to the same index of
`converted`; entries of `converted` beyond `data.size()` are untouched. -/
def forEachPixel (data : List ℚ) (converted : List Nat)
    (viewMin viewDistance stripeDistance : ℚ) (colorize : ℚ → Nat) : List Nat :=
  data.map
      (fun f => setOpaque (colorize (convertToGreyScale viewMin viewDistance stripeDistance f)))
    ++ converted.drop data.length

/-- C++ `floatSpaceConvert(data, converted, colorMode, vMin, vMax,
stripeNum)`: compute the view window once, derive
`stripeDistance = viewDistance / stripeNum`, then run `forEachPixel` with
the ramp selected by `colorMode`. Returns the final contents of
`converted`, or `none` when the window computation has no value (empty
`data`). -/
def floatSpaceConvert (data : List ℚ) (converted : List Nat)
    (colorMode : ColorizeMode) (vMin vMax stripeNum : ℚ) : Option (List Nat) :=
  match getViewWindow data vMin vMax with
  | none => none
  | some (viewMin, _viewMax, viewDistance) =>
    let stripeDistance := viewDistance / stripeNum
    some (forEachPixel data converted viewMin viewDistance stripeDistance
      (colorizeOf colorMode))

/-! Helper lemmas shared by several claim proofs. -/

/-- A successful view-window computation never returns a zero
`viewDistance`: it is forced to 1 exactly when it would be 0. -/
theorem viewDistance_ne_zero {data : List ℚ} {s e vm vM vd : ℚ}
    (h : getViewWindow data s e = some (vm, vM, vd)) : vd ≠ 0 := by
  unfold getViewWindow at h
  cases hmn : data.min? with
  | none =>
    rw [hmn] at h
    cases data.max? <;> simp at h
  | some mn =>
    cases hmx : data.max? with
    | none =>
      rw [hmn, hmx] at h
      simp at h
    | some mx =>
      rw [hmn, hmx] at h
      simp only [Option.some.injEq, Prod.mk.injEq] at h
      obtain ⟨-, -, h3⟩ := h
      by_cases h0 : mn + (mx - mn) * e - (mn + (mx - mn) * s) = 0
      · rw [if_pos h0] at h3
        rw [← h3]
        norm_num
      · rw [if_neg h0] at h3
        rw [← h3]
        exact h0

/-- The sawtooth expression of `convertToGreyScale` is the fractional
part of `a / sd` whenever `sd ≠ 0`. -/
theorem sawtooth_eq_fract (a sd : ℚ) (h : sd ≠ 0) :
    (a - sd * ⌊a / sd⌋) / sd = Int.fract (a / sd) := by
  rw [Int.fract, sub_div, mul_comm, mul_div_assoc, div_self h, mul_one]

/-- Setting byte 3 to 255 makes byte 3 read back as 255, whatever the
packed value was. -/
theorem byte_three_setOpaque (p : Nat) : byte 3 (setOpaque p) = 255 := by
  unfold byte setOpaque
  norm_num
  omega

/-- When the output buffer has exactly the input's length, `forEachPixel`
is the map of the per-sample pipeline over the samples. -/
theorem forEachPixel_eq_map (data : List ℚ) (conv : List Nat)
    (vm vd sd : ℚ) (c : ℚ → Nat) (h : conv.length = data.length) :
    forEachPixel data conv vm vd sd c =
      data.map fun f => setOpaque (c (convertToGreyScale vm vd sd f)) := by
  unfold forEachPixel
  rw [← h, List.drop_length, List.append_nil]

/-- Unfolding equation for `floatSpaceConvert` on a successful window and
a matching-length output buffer. -/
theorem floatSpaceConvert_eq (data : List ℚ) (conv : List Nat)
    (mode : ColorizeMode) (s e n vm vM vd : ℚ)
    (hw : getViewWindow data s e = some (vm, vM, vd))
    (hlen : conv.length = data.length) :
    floatSpaceConvert data conv mode s e n =
      some (data.map fun f =>
        setOpaque (colorizeOf mode (convertToGreyScale vm vd (vd / n) f))) := by
  unfold floatSpaceConvert
  rw [hw]
  show some (forEachPixel data conv vm vd (vd / n) (colorizeOf mode)) = _
  rw [forEachPixel_eq_map data conv vm vd (vd / n) (colorizeOf mode) hlen]


/-! Claim C1 (error handling on an empty sample buffer). -/

/-- C1: for the empty sample buffer `floatSpaceConvert` produces no pixel
output and has no defined result. The code performs no empty-input check
and never reports an `InvalidInput` error: it dereferences the
`minmax_element` iterators of an empty range (undefined behavior, modeled
here as the min/max having no value), so the whole conversion is `none`. -/
theorem floatSpaceConvert_empty_eq_none (conv : List Nat)
    (mode : ColorizeMode) (s e n : ℚ) :
    floatSpaceConvert [] conv mode s e n = none := rfl

/-! Claim C2 (the remap is the specified saturating sawtooth). -/

/-- C2: for every sample `f`, with `fr = f - viewMin`, the remap returns 1
exactly when `fr ≥ viewDistance`, and otherwise returns
`(fr - stripeDistance * ⌊fr / stripeDistance⌋) / stripeDistance`. -/
theorem convertToGreyScale_eq_spec_formula
    (viewMin viewDistance stripeDistance f : ℚ) :
    convertToGreyScale viewMin viewDistance stripeDistance f =
      if viewDistance ≤ f - viewMin then 1
      else (f - viewMin - stripeDistance * ⌊(f - viewMin) / stripeDistance⌋) /
        stripeDistance := by
  simp only [convertToGreyScale]
  rcases lt_or_le (f - viewMin) viewDistance with h | h
  · rw [if_pos h, if_neg (not_le.mpr h)]
  · rw [if_neg (not_lt.mpr h), if_pos h]

/-! Claim C3 (the remap always lands in the unit interval). -/

/-- C3: for any sample `f`, any window actually returned by
`getViewWindow` (so in particular a non-empty buffer) and any
`stripeNum ≥ 1`, the stripe percent lies in `[0, 1]`. -/
theorem stripePercent_mem_unitInterval (data : List ℚ)
    (s e f vm vM vd stripeNum : ℚ)
    (hw : getViewWindow data s e = some (vm, vM, vd)) (hN : 1 ≤ stripeNum) :
    0 ≤ convertToGreyScale vm vd (vd / stripeNum) f ∧
      convertToGreyScale vm vd (vd / stripeNum) f ≤ 1 := by
  have hvd : vd ≠ 0 := viewDistance_ne_zero hw
  have hN0 : stripeNum ≠ 0 := by
    intro h0
    rw [h0] at hN
    exact absurd hN (by norm_num)
  have hsd : vd / stripeNum ≠ 0 := div_ne_zero hvd hN0
  simp only [convertToGreyScale]
  by_cases hf : f - vm < vd
  · rw [if_pos hf, sawtooth_eq_fract _ _ hsd]
    exact ⟨Int.fract_nonneg _, le_of_lt (Int.fract_lt_one _)⟩
  · rw [if_neg hf]
    norm_num

/-- C3 witness: a concrete window and sample, with each hypothesis
discharged at that input. -/
theorem stripePercent_mem_unitInterval_witness :
    getViewWindow [0, 1] 0 1 = some (0, 1, 1) ∧ (1 : ℚ) ≤ 1 ∧
      (0 ≤ convertToGreyScale 0 1 (1 / 1) (7 / 3) ∧
        convertToGreyScale 0 1 (1 / 1) (7 / 3) ≤ 1) :=
  ⟨by unfold getViewWindow
      rw [(rfl : ([0, 1] : List ℚ).min? = some 0),
        (rfl : ([0, 1] : List ℚ).max? = some 1)]
      norm_num,
    le_refl 1,
    stripePercent_mem_unitInterval [0, 1] 0 1 (7 / 3) 0 1 1 1
      (by unfold getViewWindow
          rw [(rfl : ([0, 1] : List ℚ).min? = some 0),
            (rfl : ([0, 1] : List ℚ).max? = some 1)]
          norm_num)
      (le_refl 1)⟩

/-! Claim C4 (the window formula, and the full-window special case). -/

/-- C4: for a non-empty buffer with minimum `mn` and maximum `mx` and
fractions in `[0, 1]`, `getViewWindow` returns exactly
`viewMin = mn + (mx - mn) * s`, `viewMax = mn + (mx - mn) * e` and
`viewDistance = viewMax - viewMin` (forced to 1 when 0); with fractions
`(0, 1)` it returns `viewMin = mn` and `viewMax = mx`. -/
theorem getViewWindow_formula (data : List ℚ) (s e mn mx : ℚ)
    (hs0 : 0 ≤ s) (hs1 : s ≤ 1) (he0 : 0 ≤ e) (he1 : e ≤ 1)
    (hmn : data.min? = some mn) (hmx : data.max? = some mx) :
    getViewWindow data s e =
      some (mn + (mx - mn) * s, mn + (mx - mn) * e,
        if mn + (mx - mn) * e - (mn + (mx - mn) * s) = 0 then 1
        else mn + (mx - mn) * e - (mn + (mx - mn) * s)) ∧
    getViewWindow data 0 1 = some (mn, mx, if mx - mn = 0 then 1 else mx - mn) := by
  constructor
  · unfold getViewWindow
    rw [hmn, hmx]
  · unfold getViewWindow
    rw [hmn, hmx]
    norm_num

/-- C4 witness: the formula and the `(0, 1)` case at a concrete buffer. -/
theorem getViewWindow_formula_witness :
    ([2, 5] : List ℚ).min? = some 2 ∧ ([2, 5] : List ℚ).max? = some 5 ∧
      (getViewWindow [2, 5] 0 1 =
          some (2 + (5 - 2) * 0, 2 + (5 - 2) * 1,
            if (2 : ℚ) + (5 - 2) * 1 - (2 + (5 - 2) * 0) = 0 then 1
            else 2 + (5 - 2) * 1 - (2 + (5 - 2) * 0)) ∧
        getViewWindow [2, 5] 0 1 =
          some (2, 5, if (5 : ℚ) - 2 = 0 then 1 else 5 - 2)) :=
  ⟨rfl, rfl,
    getViewWindow_formula [2, 5] 0 1 2 5 (by norm_num) (by norm_num)
      (by norm_num) (by norm_num) rfl rfl⟩

/-! Claim C5 (error handling for `stripeNum ≤ 0`). -/

/-- C5: the code performs no `stripeNum` check at all. At `stripeNum = 0`
the embedded `floatSpaceConvert` still produces a full pixel buffer
instead of failing fast with an `InvalidInput` error: the division
`viewDistance / stripeNum` is simply carried out (in IEEE doubles it
yields `Inf`, and the per-sample math then feeds `NaN` percents into the
ramps; in this exact-arithmetic model division by zero is 0, which is why
a concrete output value below can be computed at all). -/
theorem floatSpaceConvert_stripeNum_zero_proceeds :
    floatSpaceConvert [0, 1] [0, 0] ColorizeMode.GREYSCALE 0 1 0 =
      some [4278190080, 4294967295] := by
  have hw : getViewWindow [0, 1] 0 1 = some (0, 1, 1) := by
    unfold getViewWindow
    rw [(rfl : ([0, 1] : List ℚ).min? = some 0),
      (rfl : ([0, 1] : List ℚ).max? = some 1)]
    norm_num
  rw [floatSpaceConvert_eq [0, 1] [0, 0] ColorizeMode.GREYSCALE 0 1 0 0 1 1 hw rfl]
  norm_num [convertToGreyScale, colorizeOf, grayScale, rgb, setOpaque,
    Rat.floor_def]
  decide

/-! Claim C6 (stripe periodicity). -/

/-- C6 counterexample: with `viewMin = 0`, `viewDistance = 1` and
`stripeNum = 1` (so `stripeDistance = 1/1`), the samples `1/2` and `3/2`
have window-relative positions differing by exactly
`viewDistance / stripeNum = 1`, yet the remap sends them to `1/2` and to
the saturated value `1` respectively — periodicity fails as soon as one
of the two samples crosses the `f ≥ viewDistance` clamp. -/
theorem stripe_periodicity_fails_at_saturation :
    (3 / 2 - (0 : ℚ)) - (1 / 2 - (0 : ℚ)) = 1 / 1 ∧
      convertToGreyScale 0 1 (1 / 1) (1 / 2) = 1 / 2 ∧
      convertToGreyScale 0 1 (1 / 1) (3 / 2) = 1 ∧
      convertToGreyScale 0 1 (1 / 1) (1 / 2) ≠
        convertToGreyScale 0 1 (1 / 1) (3 / 2) := by
  norm_num [convertToGreyScale, Rat.floor_def]

/-- C6 amended: periodicity does hold below the saturation clamp — for
`stripeNum = N ≥ 1` and two samples whose window-relative positions
differ by exactly `viewDistance / N` and both lie strictly below
`viewDistance`, the remap produces the same percent. -/
theorem stripe_periodicity_below_saturation (viewMin vd N s1 s2 : ℚ)
    (hN : 1 ≤ N) (hvd : vd ≠ 0) (hdiff : s2 - s1 = vd / N)
    (h1 : s1 - viewMin < vd) (h2 : s2 - viewMin < vd) :
    convertToGreyScale viewMin vd (vd / N) s1 =
      convertToGreyScale viewMin vd (vd / N) s2 := by
  have hN0 : N ≠ 0 := by
    intro h0
    rw [h0] at hN
    exact absurd hN (by norm_num)
  have hsd : vd / N ≠ 0 := div_ne_zero hvd hN0
  simp only [convertToGreyScale]
  rw [if_pos h1, if_pos h2, sawtooth_eq_fract _ _ hsd, sawtooth_eq_fract _ _ hsd]
  have hs2 : s2 - viewMin = s1 - viewMin + vd / N := by linarith
  rw [hs2, add_div, div_self hsd, Int.fract_add_one]

/-- C6 witness for the amended statement: `N = 2`, window `[0, 1)`,
samples `1/10` and `3/5`. -/
theorem stripe_periodicity_below_saturation_witness :
    (1 : ℚ) ≤ 2 ∧ (1 : ℚ) ≠ 0 ∧ (3 / 5 - 1 / 10 : ℚ) = 1 / 2 ∧
      (1 / 10 - (0 : ℚ)) < 1 ∧ (3 / 5 - (0 : ℚ)) < 1 ∧
      convertToGreyScale 0 1 (1 / 2) (1 / 10) =
        convertToGreyScale 0 1 (1 / 2) (3 / 5) :=
  ⟨by norm_num, by norm_num, by norm_num, by norm_num, by norm_num,
    stripe_periodicity_below_saturation 0 1 2 (1 / 10) (3 / 5) (by norm_num)
      (by norm_num) (by norm_num) (by norm_num) (by norm_num)⟩

/-! Claim C7 (every produced pixel is opaque). -/

/-- C7: for any sample buffer, color mode, fractions and stripe count,
every pixel of a successfully produced output buffer (with the output
span allocated at the input's length, as the caller does) has alpha byte
(byte 3) equal to 255, irrespective of what the ramp computed. -/
theorem alpha_byte_eq_255 (data : List ℚ) (conv : List Nat)
    (mode : ColorizeMode) (s e stripeNum : ℚ) (out : List Nat)
    (hlen : conv.length = data.length)
    (hout : floatSpaceConvert data conv mode s e stripeNum = some out) :
    ∀ p ∈ out, byte 3 p = 255 := by
  intro p hp
  cases hw : getViewWindow data s e with
  | none =>
    unfold floatSpaceConvert at hout
    rw [hw] at hout
    exact Option.noConfusion hout
  | some w =>
    obtain ⟨vm, vM, vd⟩ := w
    rw [floatSpaceConvert_eq data conv mode s e stripeNum vm vM vd hw hlen] at hout
    have hout2 : out = data.map fun f =>
        setOpaque (colorizeOf mode (convertToGreyScale vm vd (vd / stripeNum) f)) :=
      (Option.some.inj hout).symm
    rw [hout2] at hp
    obtain ⟨f, hf, hpf⟩ := List.mem_map.mp hp
    rw [← hpf]
    exact byte_three_setOpaque _

/-- Concrete evaluation used by the C7 witness: a one-sample buffer under
the GREYSCALE ramp produces the single pixel `0xFF000000`. -/
theorem floatSpaceConvert_singleton_grey :
    floatSpaceConvert [0] [0] ColorizeMode.GREYSCALE 0 1 1 = some [4278190080] := by
  have hw : getViewWindow [0] 0 1 = some (0, 0, 1) := by
    unfold getViewWindow
    rw [(rfl : ([0] : List ℚ).min? = some 0),
      (rfl : ([0] : List ℚ).max? = some 0)]
    norm_num
  rw [floatSpaceConvert_eq [0] [0] ColorizeMode.GREYSCALE 0 1 1 0 0 1 hw rfl]
  norm_num [convertToGreyScale, colorizeOf, grayScale, rgb, setOpaque, Rat.floor_def]

/-- C7 witness: the hypotheses hold at a concrete one-sample call and the
produced pixel's byte 3 is 255. -/
theorem alpha_byte_eq_255_witness :
    ([0] : List Nat).length = ([0] : List ℚ).length ∧
      floatSpaceConvert [0] [0] ColorizeMode.GREYSCALE 0 1 1 = some [4278190080] ∧
      byte 3 4278190080 = 255 :=
  ⟨rfl, floatSpaceConvert_singleton_grey,
    alpha_byte_eq_255 [0] [0] ColorizeMode.GREYSCALE 0 1 1 [4278190080] rfl
      floatSpaceConvert_singleton_grey 4278190080 (by norm_num)⟩

/-! Claim C8 (determinism / purity of the conversion). -/

/-- C8: the output buffer is a function of the sample buffer, color mode,
window fractions and stripe count alone — in particular two calls with
identical such inputs give byte-identical outputs, whatever the prior
contents of the (fully overwritten) destination buffer were. -/
theorem floatSpaceConvert_independent_of_initial_output (data : List ℚ)
    (c1 c2 : List Nat) (mode : ColorizeMode) (s e n : ℚ)
    (h1 : c1.length = data.length) (h2 : c2.length = data.length) :
    floatSpaceConvert data c1 mode s e n = floatSpaceConvert data c2 mode s e n := by
  cases hw : getViewWindow data s e with
  | none =>
    unfold floatSpaceConvert
    rw [hw]
  | some w =>
    obtain ⟨vm, vM, vd⟩ := w
    rw [floatSpaceConvert_eq data c1 mode s e n vm vM vd hw h1,
      floatSpaceConvert_eq data c2 mode s e n vm vM vd hw h2]

/-- C8 witness: two calls on the same samples with different initial
destination contents agree. -/
theorem floatSpaceConvert_independent_of_initial_output_witness :
    ([1] : List Nat).length = ([0] : List ℚ).length ∧
      ([2] : List Nat).length = ([0] : List ℚ).length ∧
      floatSpaceConvert [0] [1] ColorizeMode.BINARY 0 1 1 =
        floatSpaceConvert [0] [2] ColorizeMode.BINARY 0 1 1 :=
  ⟨rfl, rfl,
    floatSpaceConvert_independent_of_initial_output [0] [1] [2]
      ColorizeMode.BINARY 0 1 1 rfl rfl⟩

/-! Claim C9 (the below-window behavior is the unclamped variant). -/

/-- C9: the code never clamps the raw sample into `[viewMin, viewMax]`.
For a sample strictly below a positively-oriented window, with
`0 < viewMin - s < stripeDistance` and `stripeDistance > 0`, the remap
yields `percent = 1 - (viewMin - s) / stripeDistance` — just below
`viewMin` the percent is near 1, the ramp's maximum color. -/
theorem below_window_percent_unclamped (viewMin vd sd s : ℚ)
    (hsd : 0 < sd) (hvd : 0 < vd) (h1 : 0 < viewMin - s)
    (h2 : viewMin - s < sd) :
    convertToGreyScale viewMin vd sd s = 1 - (viewMin - s) / sd := by
  have hlt : s - viewMin < vd := by linarith
  simp only [convertToGreyScale]
  rw [if_pos hlt]
  have hfloor : ⌊(s - viewMin) / sd⌋ = -1 := by
    rw [Int.floor_eq_iff]
    push_cast
    constructor
    · rw [le_div_iff₀ hsd]
      linarith
    · rw [div_lt_iff₀ hsd]
      linarith
  rw [hfloor]
  push_cast
  have hsd0 : sd ≠ 0 := ne_of_gt hsd
  field_simp
  ring

/-- C9 witness: window `[1, 2)`-style parameters with a sample `1/2` one
half stripe below `viewMin = 1`. -/
theorem below_window_percent_unclamped_witness :
    (0 : ℚ) < 1 ∧ (0 : ℚ) < 1 ∧ (0 : ℚ) < 1 - 1 / 2 ∧ (1 - 1 / 2 : ℚ) < 1 ∧
      convertToGreyScale 1 1 1 (1 / 2) = 1 - (1 - 1 / 2) / 1 :=
  ⟨by norm_num, by norm_num, by norm_num, by norm_num,
    below_window_percent_unclamped 1 1 1 (1 / 2) (by norm_num) (by norm_num)
      (by norm_num) (by norm_num)⟩

/-! Claim C10 (BINARY tie-breaking at the 0.5 threshold). -/

/-- C10: at `percent = 1/2` the BINARY ramp's `std::round` rounds half
away from zero, so the bit is 1 and the pixel is white
`(r, g, b) = (255, 255, 255)`, not black. -/
theorem binary_half_rounds_to_white :
    binary (1 / 2) = rgb 255 255 255 ∧
      byte 0 (binary (1 / 2)) = 255 ∧ byte 1 (binary (1 / 2)) = 255 ∧
      byte 2 (binary (1 / 2)) = 255 := by
  norm_num [binary, stdRound, rgb, byte, Rat.floor_def]

end FitsConverter
